import Mathlib

/-!
Shallow embedding of the chatflow engine of `src/chat.py` (hakka-bot).

The Python module defines a conversation state machine driven by a
configuration graph.  We embed:

* the YAML-like raw configuration values (`Val`),
* Python's `collections.Counter` restricted to the operations the code
  uses (`c[a] += 1` and `most_common(1)`),
* `urllib.parse.parse_qs` restricted to its default arguments,
* the five node kinds `ChatDefault`, `ChatQA`, `ChatStore`, `ChatEnd`,
  `ChatInit` and their `transition` / `get_messages` methods,
* the loader pipeline `validate_chatflow` / `parse_chatflow` /
  `parse_chat` / `parse_message` / `load_chatflow` and the two template
  compilers.

Python exceptions are modelled with `Option` / `Except`.  Object identity
of the shared mutable tally (`state : Counter`) is modelled with an
explicit heap: nodes store a heap index (`state : Nat`) and transitions
thread `List Counter` as the heap; constructing a node with the same
tally object is passing the same index, constructing `Counter()` is
allocating a fresh cell at the end of the heap.
-/

namespace HakkaBot

/-- Fixed user-facing strings of `src/chat.py` lines 26-29. -/
def UNKNOWN_ERROR : String := "很抱歉，我有點不太懂。"

/-- `QUESTION_MISMATCH` of `src/chat.py` line 27. -/
def QUESTION_MISMATCH : String := "你似乎看錯題目了。"

/-- `WRONG_ANSWER` of `src/chat.py` line 28. -/
def WRONG_ANSWER : String := "再試試看吧！"

/-- `DUPLICATE_ANSWER` of `src/chat.py` line 29. -/
def DUPLICATE_ANSWER : String := "你已經選過了喔。"

/-- Raw configuration / flex-document values: the YAML scalars, sequences
and mappings the loader handles.  Mapping keys are arbitrary values
because `validate_chatflow` explicitly checks `isinstance(k, str)`. -/
inductive Val where
  | str (s : String)
  | int (n : Int)
  | bool (b : Bool)
  | arr (xs : List Val)
  | obj (entries : List (Val × Val))

/-- First value bound to the string key `k` in a mapping's entry list:
Python dict lookup (dicts cannot hold duplicate keys, so "first" is
exact). -/
def findEntry : List (Val × Val) → String → Option Val
  | [], _ => none
  | (key, v) :: rest, k =>
    match key with
    | .str s => if s = k then some v else findEntry rest k
    | _ => findEntry rest k

/-- `v[k]` / mapping-pattern lookup on a raw value: `none` when `v` is
not a mapping or lacks the key. -/
def Val.objGet (v : Val) (k : String) : Option Val :=
  match v with
  | .obj entries => findEntry entries k
  | _ => none

/-- `collections.Counter[str]`: insertion-ordered association list from
keys to counts, as Python dicts preserve insertion order. -/
structure Counter where
  entries : List (String × Nat)

/-- `Counter()`. -/
def Counter.empty : Counter := ⟨[]⟩

/-- Helper for `Counter.get`: the count at the first (= unique) entry
for `k`, 0 when absent. -/
def getEntries : List (String × Nat) → String → Nat
  | [], _ => 0
  | p :: rest, k => if p.1 = k then p.2 else getEntries rest k

/-- The count stored for `k` (0 when absent), i.e. `c[k]` read. -/
def Counter.get (c : Counter) (k : String) : Nat :=
  getEntries c.entries k

/-- Helper for `Counter.incr`: bump the first (= unique) entry for `k`
in place, or append `(k, 1)` at the end, exactly the effect of
`c[k] += 1` on a Python `Counter` (missing keys read as 0 and new keys
are inserted at the end of the insertion order). -/
def incrEntries : List (String × Nat) → String → List (String × Nat)
  | [], k => [(k, 1)]
  | p :: rest, k => if p.1 = k then (p.1, p.2 + 1) :: rest else p :: incrEntries rest k

/-- `c[k] += 1` (`src/chat.py` line 132). -/
def Counter.incr (c : Counter) (k : String) : Counter :=
  ⟨incrEntries c.entries k⟩

/-- Helper for `Counter.mostCommon1`: the entry with the maximal count,
keeping the earliest entry on ties. -/
def mostCommonAux : List (String × Nat) → Option (String × Nat)
  | [] => none
  | p :: rest =>
    match mostCommonAux rest with
    | none => some p
    | some q => if q.2 > p.2 then some q else some p

/-- `Counter.most_common(1)` as used at `src/chat.py` line 141: the
single entry with the maximal count; ties are broken by insertion order
(`heapq.nlargest` over `dict.items()` is stable), and an empty counter
yields `none` (the Python destructuring then raises `ValueError`). -/
def Counter.mostCommon1 (c : Counter) : Option (String × Nat) :=
  mostCommonAux c.entries

/-- Hexadecimal digit value, as `urllib.parse.unquote` accepts both
cases. -/
def hexDigit (c : Char) : Option Nat :=
  if '0' ≤ c ∧ c ≤ '9' then some (c.toNat - 48)
  else if 'A' ≤ c ∧ c ≤ 'F' then some (c.toNat - 55)
  else if 'a' ≤ c ∧ c ≤ 'f' then some (c.toNat - 87)
  else none

/-- Percent-decoding of `urllib.parse.unquote` on the character level:
`%xy` with two hex digits becomes the code point `16*x + y`, anything
else passes through (invalid escapes are kept verbatim, as in Python).
Multi-byte UTF-8 escape sequences are out of the modelled input space:
no postback produced or consumed by this repository contains them. -/
def unquoteChars : List Char → List Char
  | [] => []
  | '%' :: c1 :: c2 :: rest =>
    match hexDigit c1, hexDigit c2 with
    | some h1, some h2 => Char.ofNat (16 * h1 + h2) :: unquoteChars rest
    | _, _ => '%' :: unquoteChars (c1 :: c2 :: rest)
  | c :: rest => c :: unquoteChars rest

/-- `urllib.parse.unquote_plus`: replace `+` by space, then
percent-decode. -/
def unquote_plus (s : String) : String :=
  String.mk (unquoteChars (s.toList.map (fun c => if c = '+' then ' ' else c)))

/-- `str.split(sep)` for a one-character separator, on the character
level: `"".split(sep) == [""]` and separators at either end produce
empty fields, as in Python. -/
def splitOnChar (sep : Char) : List Char → List (List Char)
  | [] => [[]]
  | c :: rest =>
    match splitOnChar sep rest with
    | [] => [[]]
    | g :: gs => if c = sep then [] :: g :: gs else (c :: g) :: gs

/-- `name_value.split("=", 1)`: split at the first `=`; `none` when the
field holds no `=` (with `keep_blank_values=False` such fields are
dropped). -/
def splitFirstEq : List Char → Option (List Char × List Char)
  | [] => none
  | '=' :: rest => some ([], rest)
  | c :: rest =>
    match splitFirstEq rest with
    | some (n, v) => some (c :: n, v)
    | none => none

/-- `urllib.parse.parse_qsl` with default arguments: split the query on
`&`, drop empty fields, fields without `=` and fields with an empty
value, and `unquote_plus` both names and values. -/
def parse_qsl (qs : String) : List (String × String) :=
  (splitOnChar '&' qs.toList).filterMap (fun field =>
    match splitFirstEq field with
    | none => none
    | some (n, v) =>
      if v = [] then none
      else some (unquote_plus (String.mk n), unquote_plus (String.mk v)))

/-- Helper for `parse_qs`: append `v` to the first entry for `n`, or
append a new singleton entry, matching `dict` grouping in insertion
order. -/
def qsInsert : List (String × List String) → String → String → List (String × List String)
  | [], n, v => [(n, [v])]
  | p :: rest, n, v =>
    if p.1 = n then (p.1, p.2 ++ [v]) :: rest else p :: qsInsert rest n v

/-- `urllib.parse.parse_qs` with default arguments: group the parsed
pairs by name. -/
def parse_qs (qs : String) : List (String × List String) :=
  (parse_qsl qs).foldl (fun d p => qsInsert d p.1 p.2) []

/-- The value list bound to name `k` in a parsed query dict. -/
def qsLookup (d : List (String × List String)) (k : String) : Option (List String) :=
  (d.find? (fun p => p.1 = k)).map (fun p => p.2)

/-- The mapping pattern `{"q": [q], "a": [a]}` of `ChatQA.transition` and
`ChatStore.transition` (`src/chat.py` lines 91-92, 121-122): the parsed
query must bind `q` and `a` each to exactly one value; extra keys are
allowed by Python mapping patterns. -/
def matchQA (d : List (String × List String)) : Option (String × String) :=
  match qsLookup d "q", qsLookup d "a" with
  | some [q], some [a] => some (q, a)
  | _, _ => none

/-- A URL resolved at emission time: `make_image_message` computes
`urljoin(url, quote(path))`.  The pair `(base, path)` determines that
string; we keep it unevaluated since no claim inspects the characters of
a resolved URL, only which base and path it was resolved from. -/
structure ResolvedUrl where
  base : String
  path : String

/-- An outgoing platform message, keeping exactly the fields the code
sets: `TextMessage.text`, `ImageMessage.originalContentUrl` /
`previewImageUrl`, `FlexMessage.contents`. -/
inductive Message where
  | text (s : String)
  | image (originalContentUrl previewImageUrl : ResolvedUrl)
  | flex (contents : Val)

/-- `make_text_message` (`src/chat.py` lines 272-277): ignores the
context, returns a fixed text message. -/
def make_text_message (text : String) (_url : String) : Message :=
  Message.text text

/-- `make_image_message` (`src/chat.py` lines 280-290): both URLs are
resolved against the per-request `url`. -/
def make_image_message (original preview url : String) : Message :=
  Message.image ⟨url, original⟩ ⟨url, preview⟩

/-- `make_flex_message` (`src/chat.py` lines 293-298): wraps the raw
layout document. -/
def make_flex_message (contents : Val) (_url : String) : Message :=
  Message.flex contents

/-- A compiled message producer: the data closed over by the
`functools.partial` applications `parse_message` builds. -/
inductive MessageMaker where
  | text (s : String)
  | image (original preview : String)
  | flex (contents : Val)

/-- Apply a compiled producer to the per-request context (`url`). -/
def MessageMaker.run (m : MessageMaker) (url : String) : Message :=
  match m with
  | .text s => make_text_message s url
  | .image o p => make_image_message o p url
  | .flex c => make_flex_message c url

/-- A dialogue node.  `state : Nat` is the heap index of the node's
tally (`state: Counter[str]` in Python); `ChatEnd.data` keeps the raw
result dicts, exactly as Python stores the `TypeGuard`-ed `results`
list. -/
inductive Chat where
  | ChatDefault (dest : String) (messages : List MessageMaker) (state : Nat)
  | ChatQA (dest : String) (messages : List MessageMaker) (label answer : String)
      (attempt : List String) (state : Nat)
  | ChatStore (dest : String) (messages : List MessageMaker) (label : String) (state : Nat)
  | ChatEnd (dest : String) (messages : List MessageMaker) (data : List Val) (state : Nat)
  | ChatInit

/-- A node factory: the data closed over by the `functools.partial`
applications `parse_chat` builds (everything but the keyword-only
`state`). -/
inductive ChatMaker where
  | mkDefault (dest : String) (messages : List MessageMaker)
  | mkQA (dest : String) (messages : List MessageMaker) (label answer : String)
  | mkStore (dest : String) (messages : List MessageMaker) (label : String)
  | mkEnd (dest : String) (messages : List MessageMaker) (data : List Val)

/-- Call a factory with `state=` the given heap index.  A fresh `ChatQA`
gets an empty `attempt` (`field(default_factory=set)`). -/
def ChatMaker.make (mk : ChatMaker) (st : Nat) : Chat :=
  match mk with
  | .mkDefault d ms => .ChatDefault d ms st
  | .mkQA d ms l a => .ChatQA d ms l a [] st
  | .mkStore d ms l => .ChatStore d ms l st
  | .mkEnd d ms data => .ChatEnd d ms data st

/-- The compiled graph `CHATFLOW_MAKERS`: name → factory, in
configuration order. -/
abbrev Graph : Type := List (String × ChatMaker)

/-- `CHATFLOW_MAKERS[name]` lookup; `none` models the `KeyError`. -/
def lookupGraph (g : Graph) (k : String) : Option ChatMaker :=
  (g.find? (fun p => p.1 = k)).map (fun p => p.2)

/-- Heap update at index `st` with `c[a] += 1`; out-of-range indices
never occur for nodes made through `ChatMaker.make`. -/
def heapIncr : List Counter → Nat → String → List Counter
  | [], _, _ => []
  | c :: rest, 0, a => c.incr a :: rest
  | c :: rest, n + 1, a => c :: heapIncr rest n a

/-- `transition` of every node kind (`src/chat.py` lines 78-79, 88-111,
118-133, 151-152, 160-161).  Returns the successor node and the new
heap; `none` models an uncaught `KeyError` on a missing graph key.
Self-loops return the same node with `self.messages` overwritten by the
fixed single text producer, as the Python methods mutate
`self.messages` and `return self`. -/
def Chat.transition (g : Graph) (heap : List Counter) (c : Chat) (text : String) :
    Option (Chat × List Counter) :=
  match c with
  | .ChatInit =>
    match lookupGraph g "Begin" with
    | some mk => some (mk.make heap.length, heap ++ [Counter.empty])
    | none => none
  | .ChatDefault dest _ st =>
    match lookupGraph g dest with
    | some mk => some (mk.make st, heap)
    | none => none
  | .ChatEnd dest _ _ _ =>
    match lookupGraph g dest with
    | some mk => some (mk.make heap.length, heap ++ [Counter.empty])
    | none => none
  | .ChatQA dest _ label answer attempt st =>
    match matchQA (parse_qs text) with
    | none => some (.ChatQA dest [.text UNKNOWN_ERROR] label answer attempt st, heap)
    | some (q, a) =>
      if q ≠ label then
        some (.ChatQA dest [.text QUESTION_MISMATCH] label answer attempt st, heap)
      else if a ∈ attempt then
        some (.ChatQA dest [.text DUPLICATE_ANSWER] label answer attempt st, heap)
      else if a ≠ answer then
        some (.ChatQA dest [.text WRONG_ANSWER] label answer (attempt ++ [a]) st, heap)
      else
        match lookupGraph g dest with
        | some mk => some (mk.make st, heap)
        | none => none
  | .ChatStore dest _ label st =>
    match matchQA (parse_qs text) with
    | none => some (.ChatStore dest [.text UNKNOWN_ERROR] label st, heap)
    | some (q, a) =>
      if q ≠ label then
        some (.ChatStore dest [.text QUESTION_MISMATCH] label st, heap)
      else
        match lookupGraph g dest with
        | some mk => some (mk.make st, heapIncr heap st a)
        | none => none

/-- Python sequence indexing `xs[i]` with an `int` index: negative
indices count from the end, out-of-range raises (`none`). -/
def pyGet (xs : List Val) (i : Int) : Option Val :=
  let j := if i < 0 then i + xs.length else i
  if 0 ≤ j then xs[j.toNat]? else none

/-- `get_messages` of every node kind (`src/chat.py` lines 75-76,
140-149, 157-158).  `none` models an uncaught exception: the
`ValueError` unpacking `most_common(1)` of an empty tally, the
`TypeError` of `ord` on a non-single-character key, an `IndexError`, or
a `KeyError` on a result dict lacking a field. -/
def Chat.get_messages (heap : List Counter) (c : Chat) (url : String) :
    Option (List Message) :=
  match c with
  | .ChatInit => some []
  | .ChatDefault _ ms _ => some (ms.map (fun m => m.run url))
  | .ChatQA _ ms _ _ _ _ => some (ms.map (fun m => m.run url))
  | .ChatStore _ ms _ _ => some (ms.map (fun m => m.run url))
  | .ChatEnd _ _ data st =>
    match heap[st]? with
    | none => none
    | some cnt =>
      match cnt.mostCommon1 with
      | none => none
      | some (k, _) =>
        match k.toList with
        | [ch] =>
          let i : Int := (ch.toNat : Int) - 65
          if i < (data.length : Int) then
            match pyGet data i with
            | none => none
            | some x =>
              match x.objGet "original", x.objGet "preview", x.objGet "text" with
              | some (.str o), some (.str p), some (.str t) =>
                some [make_image_message o p url, make_text_message t url]
              | _, _, _ => none
          else
            some [make_text_message UNKNOWN_ERROR url]
        | _ => none

/-- The 26 uppercase letters of `string.ascii_uppercase`; iterating a
Python string yields one-character strings. -/
def asciiUppercase : List String :=
  ["A", "B", "C", "D", "E", "F", "G", "H", "I", "J", "K", "L", "M",
   "N", "O", "P", "Q", "R", "S", "T", "U", "V", "W", "X", "Y", "Z"]

/-- One option button of `make_contents_from_template_1`
(`src/chat.py` lines 317-329): `p = (q, a)` is one pair of
`zip(options, string.ascii_uppercase)`. -/
def template1Button (label fg : String) (p : String × String) : Val :=
  .obj [
    (.str "action", .obj [
      (.str "data", .str ("q=" ++ label ++ "&a=" ++ p.2)),
      (.str "displayText", .str ("我選" ++ p.1 ++ "！")),
      (.str "label", .str p.1),
      (.str "type", .str "postback")]),
    (.str "color", .str fg),
    (.str "type", .str "button")]

/-- `make_contents_from_template_1` (`src/chat.py` lines 301-338). -/
def make_contents_from_template_1 (label title : String) (options : List String)
    (fg bg : String) : Val :=
  .obj [
    (.str "body", .obj [
      (.str "contents", .arr [.obj [
        (.str "text", .str title), (.str "type", .str "text"),
        (.str "wrap", .bool true)]]),
      (.str "layout", .str "vertical"),
      (.str "type", .str "box")]),
    (.str "footer", .obj [
      (.str "contents", .arr (
        [.obj [(.str "color", .str fg), (.str "type", .str "separator")]]
        ++ (options.zip asciiUppercase).map (template1Button label fg)
        ++ [.obj [(.str "color", .str fg), (.str "type", .str "separator")]])),
      (.str "layout", .str "vertical"),
      (.str "spacing", .str "sm"),
      (.str "type", .str "box")]),
    (.str "styles", .obj [
      (.str "body", .obj [(.str "backgroundColor", .str bg)]),
      (.str "footer", .obj [(.str "backgroundColor", .str bg)])]),
    (.str "type", .str "bubble")]

/-- One option card of `make_contents_from_template_2`
(`src/chat.py` lines 363-395): `p = (opt, a)` is one pair of
`zip(options, string.ascii_uppercase)`. -/
def template2Card (label fg bg : String) (p : String × String) : Val :=
  .obj [
    (.str "type", .str "bubble"),
    (.str "size", .str "nano"),
    (.str "body", .obj [
      (.str "type", .str "box"),
      (.str "layout", .str "vertical"),
      (.str "contents", .arr [.obj [
        (.str "type", .str "text"), (.str "text", .str p.1),
        (.str "wrap", .bool true)]])]),
    (.str "footer", .obj [
      (.str "type", .str "box"),
      (.str "layout", .str "vertical"),
      (.str "contents", .arr [
        .obj [(.str "type", .str "separator"), (.str "color", .str fg)],
        .obj [
          (.str "type", .str "button"),
          (.str "action", .obj [
            (.str "type", .str "postback"),
            (.str "label", .str p.2),
            (.str "data", .str ("q=" ++ label ++ "&a=" ++ p.2)),
            (.str "displayText", .str ("我選" ++ p.2 ++ "！"))]),
          (.str "color", .str fg)]])]),
    (.str "styles", .obj [
      (.str "body", .obj [(.str "backgroundColor", .str bg)]),
      (.str "footer", .obj [(.str "backgroundColor", .str bg)])])]

/-- `make_contents_from_template_2` (`src/chat.py` lines 341-397). -/
def make_contents_from_template_2 (label title : String) (options : List String)
    (fg bg : String) : Val :=
  .obj [
    (.str "type", .str "carousel"),
    (.str "contents", .arr (
      [.obj [
        (.str "type", .str "bubble"),
        (.str "size", .str "nano"),
        (.str "body", .obj [
          (.str "type", .str "box"),
          (.str "layout", .str "vertical"),
          (.str "contents", .arr [.obj [
            (.str "type", .str "text"), (.str "text", .str title),
            (.str "wrap", .bool true), (.str "size", .str "sm")]])]),
        (.str "styles", .obj [(.str "body", .obj [(.str "backgroundColor", .str bg)])])]]
      ++ (options.zip asciiUppercase).map (template2Card label fg bg)))]

/-- `validate_result` (`src/chat.py` lines 265-269): the entry must be a
mapping holding string values at `original`, `preview` and `text`. -/
def validate_result (raw : Val) : Bool :=
  match raw.objGet "original", raw.objGet "preview", raw.objGet "text" with
  | some (.str _), some (.str _), some (.str _) => true
  | _, _, _ => false

/-- One message-spec check of `validate_chatflow` (`src/chat.py` lines
190-195): the pattern `{"type": str()}`. -/
def validate_message (m : Val) : Except String Unit :=
  match m.objGet "type" with
  | some (.str _) => .ok ()
  | _ => .error "invalid message"

/-- The action check of `validate_chatflow` (`src/chat.py` lines
197-201): the pattern `{"type": str()}`. -/
def validate_action (a : Val) : Except String Unit :=
  match a.objGet "type" with
  | some (.str _) => .ok ()
  | _ => .error "invalid action"

/-- The message loop of `validate_chatflow`: first violation wins. -/
def validate_messages : List Val → Except String Unit
  | [] => .ok ()
  | m :: rest =>
    match validate_message m with
    | .ok _ => validate_messages rest
    | .error e => .error e

/-- One node check of `validate_chatflow` (`src/chat.py` lines
184-201): the node must match `{"messages": [*messages], "action":
action}`, each message must have a string `type`, and the action must
have a string `type`. -/
def validate_node (v : Val) : Except String Unit :=
  match v.objGet "messages", v.objGet "action" with
  | some (.arr ms), some action =>
    (match validate_messages ms with
     | .ok _ => validate_action action
     | .error e => .error e)
  | _, _ => .error "must have messages and action keys"

/-- One entry check of `validate_chatflow` (`src/chat.py` lines
180-201): the key must be a string, then the node is checked. -/
def validate_entry (p : Val × Val) : Except String Unit :=
  match p.1 with
  | .str _ => validate_node p.2
  | _ => .error "key must be a str"

/-- The entry loop of `validate_chatflow`: traversal order of the input
mapping, first violation wins. -/
def validate_nodes : List (Val × Val) → Except String Bool
  | [] => .ok true
  | p :: rest =>
    match validate_entry p with
    | .ok _ => validate_nodes rest
    | .error e => .error e

/-- `validate_chatflow` (`src/chat.py` lines 176-202): raises
(`.error`) on the first malformed node in traversal order, returns
`True` otherwise. -/
def validate_chatflow (raw : Val) : Except String Bool :=
  match raw with
  | .obj entries => validate_nodes entries
  | _ => .error "input object must be a dict"

/-- The `options` guard of the template message case: every option must
be a string. -/
def strOptions : List Val → Option (List String)
  | [] => some []
  | .str s :: rest =>
    match strOptions rest with
    | some ss => some (s :: ss)
    | none => none
  | _ :: _ => none

/-- `parse_message` (`src/chat.py` lines 230-262): the four message
cases tried in order; an unmatched spec or a template `id` outside
`{1, 2}` raises. -/
def parse_message (raw : Val) : Except String MessageMaker :=
  match raw.objGet "type" with
  | some (.str "text") =>
    (match raw.objGet "data" with
     | some (.str data) => .ok (.text data)
     | _ => .error "invalid message type")
  | some (.str "image") =>
    (match raw.objGet "data" with
     | some d =>
       (match d.objGet "original", d.objGet "preview" with
        | some (.str o), some (.str p) => .ok (.image o p)
        | _, _ => .error "invalid message type")
     | none => .error "invalid message type")
  | some (.str "flex") =>
    (match raw.objGet "data" with
     | some (.obj entries) => .ok (.flex (.obj entries))
     | _ => .error "invalid message type")
  | some (.str "template") =>
    (match raw.objGet "data" with
     | some d =>
       (match d.objGet "id", d.objGet "label", d.objGet "title",
              d.objGet "options", d.objGet "fg", d.objGet "bg" with
        | some (.int id), some (.str label), some (.str title),
          some (.arr options), some (.str fg), some (.str bg) =>
          (match strOptions options with
           | some opts =>
             if id = 1 then
               .ok (.flex (make_contents_from_template_1 label title opts fg bg))
             else if id = 2 then
               .ok (.flex (make_contents_from_template_2 label title opts fg bg))
             else .error "invalid template id"
           | none => .error "invalid message type")
        | _, _, _, _, _, _ => .error "invalid message type")
     | none => .error "invalid message type")
  | _ => .error "invalid message type"

/-- The message loop of `parse_chat`: `[parse_message(m) for m in
raw["messages"]]`. -/
def parse_messages : List Val → Except String (List MessageMaker)
  | [] => .ok []
  | m :: rest =>
    match parse_message m with
    | .ok mm =>
      (match parse_messages rest with
       | .ok mms => .ok (mm :: mms)
       | .error e => .error e)
    | .error e => .error e

/-- The action match of `parse_chat` (`src/chat.py` lines 212-227):
the four action cases tried in order; the `end` case additionally
requires `all(validate_result(r) for r in results)`, and any unmatched
action raises. -/
def parse_action (messages : List MessageMaker) (action : Val) :
    Except String ChatMaker :=
  match action.objGet "type", action.objGet "data" with
  | some (.str "default"), some d =>
    (match d.objGet "dest" with
     | some (.str dest) => .ok (.mkDefault dest messages)
     | _ => .error "invalid action type")
  | some (.str "qa"), some d =>
    (match d.objGet "dest", d.objGet "label", d.objGet "answer" with
     | some (.str dest), some (.str label), some (.str ans) =>
       .ok (.mkQA dest messages label ans)
     | _, _, _ => .error "invalid action type")
  | some (.str "store"), some d =>
    (match d.objGet "dest", d.objGet "label" with
     | some (.str dest), some (.str label) => .ok (.mkStore dest messages label)
     | _, _ => .error "invalid action type")
  | some (.str "end"), some d =>
    (match d.objGet "dest", d.objGet "results" with
     | some (.str dest), some (.arr results) =>
       if results.all validate_result then .ok (.mkEnd dest messages results)
       else .error "invalid action type"
     | _, _ => .error "invalid action type")
  | _, _ => .error "invalid action type"

/-- `parse_chat` (`src/chat.py` lines 209-227): compile the message
list, then match the action. -/
def parse_chat (raw : Val) : Except String ChatMaker :=
  match raw.objGet "messages" with
  | some (.arr ms) =>
    (match parse_messages ms with
     | .ok messages =>
       (match raw.objGet "action" with
        | some action => parse_action messages action
        | none => .error "KeyError: action")
     | .error e => .error e)
  | _ => .error "KeyError: messages"

/-- The entry loop of `parse_chatflow` (`src/chat.py` lines 205-206):
`{key: parse_chat(val) for key, val in raw.items()}`, compiling nodes
in traversal order. -/
def parse_nodes : List (Val × Val) → Except String (List (String × ChatMaker))
  | [] => .ok []
  | (k, v) :: rest =>
    match k with
    | .str s =>
      (match parse_chat v with
       | .ok mk =>
         (match parse_nodes rest with
          | .ok g => .ok ((s, mk) :: g)
          | .error e => .error e)
       | .error e => .error e)
    | _ => .error "key must be a str"

/-- `parse_chatflow` (`src/chat.py` lines 205-206). -/
def parse_chatflow (raw : Val) : Except String (List (String × ChatMaker)) :=
  match raw with
  | .obj entries => parse_nodes entries
  | _ => .error "input object must be a dict"

/-- `load_chatflow` (`src/chat.py` lines 169-173) minus the file and
YAML I/O: `assert validate_chatflow(raw)` (which raises on a malformed
graph and otherwise returns `True`) followed by `parse_chatflow(raw)`. -/
def load_chatflow (raw : Val) : Except String (List (String × ChatMaker)) :=
  match validate_chatflow raw with
  | .ok _ => parse_chatflow raw
  | .error e => .error e

/-! ## Helper lemmas -/

theorem getEntries_incrEntries_same (l : List (String × Nat)) (k : String) :
    getEntries (incrEntries l k) k = getEntries l k + 1 := by
  induction l with
  | nil => simp [incrEntries, getEntries]
  | cons p rest ih =>
    by_cases h : p.1 = k
    · simp [incrEntries, getEntries, h]
    · simp [incrEntries, getEntries, h, ih]

theorem getEntries_incrEntries_other (l : List (String × Nat)) (k k2 : String)
    (hne : k2 ≠ k) : getEntries (incrEntries l k) k2 = getEntries l k2 := by
  induction l with
  | nil => simp [incrEntries, getEntries, Ne.symm hne]
  | cons p rest ih =>
    by_cases h : p.1 = k
    · simp [incrEntries, getEntries, h, Ne.symm hne]
    · simp only [incrEntries, if_neg h, getEntries]
      by_cases h2 : p.1 = k2 <;> simp [h2, ih]

theorem mostCommonAux_eq_none (l : List (String × Nat)) :
    mostCommonAux l = none ↔ l = [] := by
  cases l with
  | nil => simp [mostCommonAux]
  | cons y ys =>
    simp only [mostCommonAux]
    cases mostCommonAux ys with
    | none => simp
    | some q => by_cases h : q.2 > y.2 <;> simp [h]

theorem mostCommonAux_mem (l : List (String × Nat)) (p : String × Nat)
    (h : mostCommonAux l = some p) : p ∈ l := by
  induction l generalizing p with
  | nil => simp [mostCommonAux] at h
  | cons q rest ih =>
    cases hr : mostCommonAux rest with
    | none =>
      simp only [mostCommonAux, hr] at h
      have hq := Option.some.inj h
      subst hq
      exact List.mem_cons_self _ _
    | some r =>
      simp only [mostCommonAux, hr] at h
      by_cases hgt : r.2 > q.2
      · rw [if_pos hgt] at h
        have hq := Option.some.inj h
        subst hq
        exact List.mem_cons_of_mem _ (ih _ hr)
      · rw [if_neg hgt] at h
        have hq := Option.some.inj h
        subst hq
        exact List.mem_cons_self _ _

theorem mostCommonAux_max (l : List (String × Nat)) (p : String × Nat)
    (h : mostCommonAux l = some p) : ∀ x ∈ l, x.2 ≤ p.2 := by
  induction l generalizing p with
  | nil => simp [mostCommonAux] at h
  | cons q rest ih =>
    intro x hx
    cases hr : mostCommonAux rest with
    | none =>
      simp only [mostCommonAux, hr] at h
      have hq := Option.some.inj h
      subst hq
      have hrest := (mostCommonAux_eq_none rest).mp hr
      subst hrest
      have hxq : x = q := by simpa using hx
      subst hxq
      exact le_refl _
    | some r =>
      simp only [mostCommonAux, hr] at h
      by_cases hgt : r.2 > q.2
      · rw [if_pos hgt] at h
        have hq := Option.some.inj h
        subst hq
        rcases List.mem_cons.mp hx with h1 | h1
        · subst h1; omega
        · exact ih _ hr x h1
      · rw [if_neg hgt] at h
        have hq := Option.some.inj h
        subst hq
        rcases List.mem_cons.mp hx with h1 | h1
        · subst h1; exact le_refl _
        · have := ih _ hr x h1; omega

theorem pyGet_natCast (xs : List Val) (n : Nat) : pyGet xs (n : Int) = xs[n]? := by
  have h1 : ¬((n : Int) < 0) := by omega
  simp [pyGet, h1]

/-! ## Claim theorems -/

/-- C10: for every `End` node whose tally is empty, `get_messages`
raises (the destructuring `((k, v),) = self.state.most_common(1)` of an
empty multiset fails), modelled as `none`: there is no fallback for the
empty-tally case. -/
theorem C10_end_empty_tally_raises (dest : String) (ms : List MessageMaker)
    (data : List Val) (st : Nat) (heap : List Counter) (url : String)
    (h : heap[st]? = some Counter.empty) :
    Chat.get_messages heap (.ChatEnd dest ms data st) url = none := by
  simp [Chat.get_messages, h, Counter.mostCommon1, Counter.empty, mostCommonAux]

theorem C10_end_empty_tally_raises_witness :
    Chat.get_messages [Counter.empty] (.ChatEnd "Begin" [] [] 0) "u" = none :=
  C10_end_empty_tally_raises "Begin" [] [] 0 [Counter.empty] "u" rfl

/-- C9: a `QA` node given a well-formed postback whose `q` differs from
its label self-loops carrying only the fixed question-mismatch message,
leaving `attempt`, the tally heap and every other field unchanged. -/
theorem C9_qa_mismatch_self_loop (g : Graph) (heap : List Counter) (text : String)
    (dest : String) (ms : List MessageMaker) (label answer : String)
    (attempt : List String) (st : Nat) (q a : String)
    (hqa : matchQA (parse_qs text) = some (q, a)) (hq : q ≠ label) :
    Chat.transition g heap (.ChatQA dest ms label answer attempt st) text
      = some (.ChatQA dest [.text QUESTION_MISMATCH] label answer attempt st, heap) := by
  simp [Chat.transition, hqa, hq]

theorem C9_qa_mismatch_self_loop_witness :
    Chat.transition [] [] (.ChatQA "D" [] "Q1" "A" [] 0) "q=X&a=B"
      = some (.ChatQA "D" [.text QUESTION_MISMATCH] "Q1" "A" [] 0, []) :=
  C9_qa_mismatch_self_loop [] [] "q=X&a=B" "D" [] "Q1" "A" [] 0 "X" "B" rfl
    (by decide)

/-- C5: a first submission of a well-formed postback with `q` equal to
the node's label and a wrong, not-yet-attempted answer `a` self-loops
with the "try again" message and adds `a` to `attempt`; a second
submission of the same wrong `a` to the resulting node self-loops with
the "already answered" message, not the generic wrong-answer message. -/
theorem C5_qa_wrong_then_duplicate (g : Graph) (heap : List Counter)
    (text1 text2 dest : String) (ms : List MessageMaker) (label answer : String)
    (attempt : List String) (st : Nat) (a : String)
    (h1 : matchQA (parse_qs text1) = some (label, a))
    (hmem : a ∉ attempt) (hwrong : a ≠ answer)
    (h2 : matchQA (parse_qs text2) = some (label, a)) :
    Chat.transition g heap (.ChatQA dest ms label answer attempt st) text1
      = some (.ChatQA dest [.text WRONG_ANSWER] label answer (attempt ++ [a]) st, heap) ∧
    Chat.transition g heap
        (.ChatQA dest [.text WRONG_ANSWER] label answer (attempt ++ [a]) st) text2
      = some (.ChatQA dest [.text DUPLICATE_ANSWER] label answer (attempt ++ [a]) st,
          heap) := by
  constructor
  · simp [Chat.transition, h1, hmem, hwrong]
  · simp [Chat.transition, h2]

theorem C5_qa_wrong_then_duplicate_witness :
    Chat.transition [] [] (.ChatQA "D" [] "Q1" "A" [] 0) "q=Q1&a=B"
      = some (.ChatQA "D" [.text WRONG_ANSWER] "Q1" "A" ["B"] 0, []) ∧
    Chat.transition [] [] (.ChatQA "D" [.text WRONG_ANSWER] "Q1" "A" ["B"] 0) "q=Q1&a=B"
      = some (.ChatQA "D" [.text DUPLICATE_ANSWER] "Q1" "A" ["B"] 0, []) :=
  C5_qa_wrong_then_duplicate [] [] "q=Q1&a=B" "q=Q1&a=B" "D" [] "Q1" "A" [] 0 "B"
    rfl (by decide) (by decide) rfl

/-- C6: a `QA` node given the correct answer after any number of prior
distinct wrong attempts advances to the graph's `dest` node, built with
the same tally index and an untouched heap; the `attempt` set is
discarded with the node (a fresh factory call starts from an empty
one). -/
theorem C6_qa_correct_advances (g : Graph) (heap : List Counter) (text dest : String)
    (ms : List MessageMaker) (label answer : String) (attempt : List String) (st : Nat)
    (mk : ChatMaker)
    (hqa : matchQA (parse_qs text) = some (label, answer))
    (hmem : answer ∉ attempt)
    (hdest : lookupGraph g dest = some mk) :
    Chat.transition g heap (.ChatQA dest ms label answer attempt st) text
      = some (mk.make st, heap) := by
  simp [Chat.transition, hqa, hmem, hdest]

theorem C6_qa_correct_advances_witness :
    Chat.transition [("D", .mkQA "E" [] "Q2" "C")] []
        (.ChatQA "D" [] "Q1" "A" ["B", "C"] 0) "q=Q1&a=A"
      = some (.ChatQA "E" [] "Q2" "C" [] 0, []) :=
  C6_qa_correct_advances [("D", .mkQA "E" [] "Q2" "C")] [] "q=Q1&a=A" "D" [] "Q1" "A"
    ["B", "C"] 0 (.mkQA "E" [] "Q2" "C") rfl (by decide) rfl

theorem concat_length_lookup {α : Type} (l : List α) (a : α) :
    (l ++ [a])[l.length]? = some a := by
  induction l with
  | nil => rfl
  | cons x xs ih => simp [ih]

/-- C3: the tally is freshly created empty at exactly the two reset
transitions (`Init → "Begin"` and `End`'s own transition, both of which
allocate a fresh empty cell at the end of the heap), while every other
advancing transition — `Default`, `QA` on the correct answer, `Store`
on a match — constructs the successor with the very same tally index,
so identity is preserved and all accumulation lands in one shared
multiset; re-entering an `End` node yields a fresh empty tally no
matter what the previous tally held. -/
theorem C3_tally_reset_points :
    (∀ (g : Graph) (heap : List Counter) (text : String) (mk : ChatMaker),
      lookupGraph g "Begin" = some mk →
      Chat.transition g heap .ChatInit text
        = some (mk.make heap.length, heap ++ [Counter.empty]) ∧
      (heap ++ [Counter.empty])[heap.length]? = some Counter.empty) ∧
    (∀ (g : Graph) (heap : List Counter) (text dest : String)
        (ms : List MessageMaker) (data : List Val) (st : Nat) (mk : ChatMaker),
      lookupGraph g dest = some mk →
      Chat.transition g heap (.ChatEnd dest ms data st) text
        = some (mk.make heap.length, heap ++ [Counter.empty]) ∧
      (heap ++ [Counter.empty])[heap.length]? = some Counter.empty) ∧
    (∀ (g : Graph) (heap : List Counter) (text dest : String)
        (ms : List MessageMaker) (st : Nat) (mk : ChatMaker),
      lookupGraph g dest = some mk →
      Chat.transition g heap (.ChatDefault dest ms st) text = some (mk.make st, heap)) ∧
    (∀ (g : Graph) (heap : List Counter) (text dest : String) (ms : List MessageMaker)
        (label answer : String) (attempt : List String) (st : Nat) (mk : ChatMaker),
      matchQA (parse_qs text) = some (label, answer) → answer ∉ attempt →
      lookupGraph g dest = some mk →
      Chat.transition g heap (.ChatQA dest ms label answer attempt st) text
        = some (mk.make st, heap)) ∧
    (∀ (g : Graph) (heap : List Counter) (text dest : String) (ms : List MessageMaker)
        (label : String) (st : Nat) (mk : ChatMaker) (a : String),
      matchQA (parse_qs text) = some (label, a) →
      lookupGraph g dest = some mk →
      Chat.transition g heap (.ChatStore dest ms label st) text
        = some (mk.make st, heapIncr heap st a)) := by
  refine ⟨?_, ?_, ?_, ?_, ?_⟩
  · intro g heap text mk hb
    exact ⟨by simp [Chat.transition, hb], concat_length_lookup heap Counter.empty⟩
  · intro g heap text dest ms data st mk hd
    exact ⟨by simp [Chat.transition, hd], concat_length_lookup heap Counter.empty⟩
  · intro g heap text dest ms st mk hd
    simp [Chat.transition, hd]
  · intro g heap text dest ms label answer attempt st mk hqa hmem hd
    simp [Chat.transition, hqa, hmem, hd]
  · intro g heap text dest ms label st mk a hqa hd
    simp [Chat.transition, hqa, hd]

theorem C3_tally_reset_points_witness :
    Chat.transition [("Begin", .mkDefault "E" [])] [Counter.mk [("A", 2)]]
        .ChatInit "hi"
      = some (.ChatDefault "E" [] 1, [Counter.mk [("A", 2)], Counter.empty]) ∧
    Chat.transition [("Begin", .mkDefault "E" [])] [Counter.mk [("A", 2)]]
        (.ChatEnd "Begin" [] [] 0) "hi"
      = some (.ChatDefault "E" [] 1, [Counter.mk [("A", 2)], Counter.empty]) ∧
    Chat.transition [("Begin", .mkDefault "E" [])] [Counter.mk [("A", 2)]]
        (.ChatDefault "Begin" [] 0) "hi"
      = some (.ChatDefault "E" [] 0, [Counter.mk [("A", 2)]]) ∧
    Chat.transition [("Begin", .mkDefault "E" [])] [Counter.mk [("A", 2)]]
        (.ChatQA "Begin" [] "Q1" "A" ["B"] 0) "q=Q1&a=A"
      = some (.ChatDefault "E" [] 0, [Counter.mk [("A", 2)]]) ∧
    Chat.transition [("Begin", .mkDefault "E" [])] [Counter.mk [("A", 2)]]
        (.ChatStore "Begin" [] "S1" 0) "q=S1&a=A"
      = some (.ChatDefault "E" [] 0, [Counter.mk [("A", 3)]]) :=
  ⟨(C3_tally_reset_points.1 [("Begin", .mkDefault "E" [])] [Counter.mk [("A", 2)]]
      "hi" (.mkDefault "E" []) rfl).1,
   (C3_tally_reset_points.2.1 [("Begin", .mkDefault "E" [])] [Counter.mk [("A", 2)]]
      "hi" "Begin" [] [] 0 (.mkDefault "E" []) rfl).1,
   C3_tally_reset_points.2.2.1 [("Begin", .mkDefault "E" [])] [Counter.mk [("A", 2)]]
      "hi" "Begin" [] 0 (.mkDefault "E" []) rfl,
   C3_tally_reset_points.2.2.2.1 [("Begin", .mkDefault "E" [])] [Counter.mk [("A", 2)]]
      "q=Q1&a=A" "Begin" [] "Q1" "A" ["B"] 0 (.mkDefault "E" []) rfl (by decide) rfl,
   C3_tally_reset_points.2.2.2.2 [("Begin", .mkDefault "E" [])] [Counter.mk [("A", 2)]]
      "q=S1&a=A" "Begin" [] "S1" 0 (.mkDefault "E" []) "A" rfl rfl⟩

/-- C7: a `Store` node given a well-formed postback whose `q` equals its
label increments `tally[a]` by exactly one and advances to
`graph[dest]` built with the same tally index; unparsable input or a
`q`/label mismatch self-loops with the respective fixed text and leaves
the tally heap unchanged. -/
theorem C7_store_transition (g : Graph) (heap : List Counter) (dest : String)
    (ms : List MessageMaker) (label : String) (st : Nat) :
    (∀ text a mk, matchQA (parse_qs text) = some (label, a) →
      lookupGraph g dest = some mk →
      Chat.transition g heap (.ChatStore dest ms label st) text
        = some (mk.make st, heapIncr heap st a)) ∧
    (∀ text, matchQA (parse_qs text) = none →
      Chat.transition g heap (.ChatStore dest ms label st) text
        = some (.ChatStore dest [.text UNKNOWN_ERROR] label st, heap)) ∧
    (∀ text q a, matchQA (parse_qs text) = some (q, a) → q ≠ label →
      Chat.transition g heap (.ChatStore dest ms label st) text
        = some (.ChatStore dest [.text QUESTION_MISMATCH] label st, heap)) ∧
    (∀ (c : Counter) (a : String), (c.incr a).get a = c.get a + 1 ∧
      ∀ k, k ≠ a → (c.incr a).get k = c.get k) := by
  refine ⟨?_, ?_, ?_, ?_⟩
  · intro text a mk hqa hdest
    simp [Chat.transition, hqa, hdest]
  · intro text hqa
    simp [Chat.transition, hqa]
  · intro text q a hqa hne
    simp [Chat.transition, hqa, hne]
  · intro c a
    exact ⟨getEntries_incrEntries_same c.entries a,
      fun k hk => getEntries_incrEntries_other c.entries a k hk⟩

theorem C7_store_transition_witness :
    Chat.transition [("D", .mkDefault "E" [])] [Counter.empty]
        (.ChatStore "D" [] "S1" 0) "q=S1&a=A"
      = some (.ChatDefault "E" [] 0, [Counter.mk [("A", 1)]]) ∧
    Chat.transition [("D", .mkDefault "E" [])] [Counter.empty]
        (.ChatStore "D" [] "S1" 0) "oops"
      = some (.ChatStore "D" [.text UNKNOWN_ERROR] "S1" 0, [Counter.empty]) ∧
    Chat.transition [("D", .mkDefault "E" [])] [Counter.empty]
        (.ChatStore "D" [] "S1" 0) "q=X&a=A"
      = some (.ChatStore "D" [.text QUESTION_MISMATCH] "S1" 0, [Counter.empty]) ∧
    ((Counter.mk [("A", 1)]).incr "A").get "A" = (Counter.mk [("A", 1)]).get "A" + 1 :=
  ⟨(C7_store_transition [("D", .mkDefault "E" [])] [Counter.empty] "D" [] "S1" 0).1
      "q=S1&a=A" "A" (.mkDefault "E" []) rfl rfl,
   (C7_store_transition [("D", .mkDefault "E" [])] [Counter.empty] "D" [] "S1" 0).2.1
      "oops" rfl,
   (C7_store_transition [("D", .mkDefault "E" [])] [Counter.empty] "D" [] "S1" 0).2.2.1
      "q=X&a=A" "X" "A" rfl (by decide),
   ((C7_store_transition [("D", .mkDefault "E" [])] [Counter.empty] "D" [] "S1" 0).2.2.2
      (Counter.mk [("A", 1)]) "A").1⟩

/-- C2: for an `End` node with a non-empty tally, `get_messages` takes
the tally's most-frequent key (first to reach the maximum in insertion
order; the first conjunct checks it is a maximal entry), maps a key in
the uppercase alphabet to the zero-based index `ord(k) - ord("A")`; an
index inside `results` yields exactly an image pair resolved against
the context url followed by the result's text, and an index `≥
len(results)` yields exactly the single fallback text. -/
theorem C2_end_messages (dest : String) (ms : List MessageMaker) (data : List Val)
    (st : Nat) (heap : List Counter) (url : String) (cnt : Counter) (k : String)
    (v : Nat) (ch : Char)
    (hheap : heap[st]? = some cnt)
    (hmc : cnt.mostCommon1 = some (k, v))
    (hk : k.toList = [ch])
    (hlo : 65 ≤ ch.toNat) (hhi : ch.toNat ≤ 90) :
    ((k, v) ∈ cnt.entries ∧ ∀ x ∈ cnt.entries, x.2 ≤ v) ∧
    (∀ x o p t, data[ch.toNat - 65]? = some x →
      x.objGet "original" = some (.str o) →
      x.objGet "preview" = some (.str p) →
      x.objGet "text" = some (.str t) →
      Chat.get_messages heap (.ChatEnd dest ms data st) url
        = some [Message.image ⟨url, o⟩ ⟨url, p⟩, Message.text t]) ∧
    (data.length ≤ ch.toNat - 65 →
      Chat.get_messages heap (.ChatEnd dest ms data st) url
        = some [Message.text UNKNOWN_ERROR]) := by
  have hk2 : k.data = [ch] := hk
  have hcast : (ch.toNat : Int) - 65 = ((ch.toNat - 65 : Nat) : Int) := by omega
  refine ⟨⟨mostCommonAux_mem _ _ hmc, mostCommonAux_max _ _ hmc⟩, ?_, ?_⟩
  · intro x o p t hx ho hp ht
    have hlt : ch.toNat - 65 < data.length := by
      by_contra hge
      rw [List.getElem?_eq_none (by omega)] at hx
      cases hx
    have hltI : ((ch.toNat - 65 : Nat) : Int) < (data.length : Int) := by omega
    simp only [Chat.get_messages, hheap, hmc, hk, hk2, hcast, pyGet_natCast, hx,
      if_pos hltI, ho, hp, ht, make_image_message, make_text_message]
  · intro hge
    have hltI : ¬((ch.toNat : Int) - 65 < (data.length : Int)) := by omega
    simp only [Chat.get_messages, hheap, hmc, hk, hk2, if_neg hltI,
      make_text_message]

theorem C2_end_messages_witness :
    Chat.get_messages [Counter.mk [("A", 3), ("B", 1)]]
        (.ChatEnd "Begin" []
          [.obj [(.str "original", .str "o1"), (.str "preview", .str "p1"),
                 (.str "text", .str "t1")]] 0) "u"
      = some [Message.image ⟨"u", "o1"⟩ ⟨"u", "p1"⟩, Message.text "t1"] ∧
    Chat.get_messages [Counter.mk [("C", 2)]] (.ChatEnd "Begin" [] [] 0) "u"
      = some [Message.text UNKNOWN_ERROR] :=
  ⟨(C2_end_messages "Begin" []
      [.obj [(.str "original", .str "o1"), (.str "preview", .str "p1"),
             (.str "text", .str "t1")]] 0 [Counter.mk [("A", 3), ("B", 1)]] "u"
      (Counter.mk [("A", 3), ("B", 1)]) "A" 3 'A' rfl rfl rfl (by decide)
      (by decide)).2.1 _ "o1" "p1" "t1" rfl rfl rfl rfl,
   (C2_end_messages "Begin" [] [] 0 [Counter.mk [("C", 2)]] "u"
      (Counter.mk [("C", 2)]) "C" 2 'C' rfl rfl rfl (by decide)
      (by decide)).2.2 (by decide)⟩

/-- Whether a flex component is a button (`"type": "button"`). -/
def isButtonVal (v : Val) : Bool :=
  match v.objGet "type" with
  | some (.str s) => s = "button"
  | _ => false

/-- The button components of a bubble's footer, in document order. -/
def footerButtons (v : Val) : List Val :=
  match v.objGet "footer" with
  | some f =>
    match f.objGet "contents" with
    | some (.arr xs) => xs.filter isButtonVal
    | _ => []
  | none => []

/-- The postback `data` string of a button component. -/
def buttonData (v : Val) : Option Val :=
  match v.objGet "action" with
  | some act => act.objGet "data"
  | none => none

theorem isButtonVal_template1Button (label fg : String) (p : String × String) :
    isButtonVal (template1Button label fg p) = true := rfl

theorem footerButtons_template1 (label title fg bg : String) (options : List String) :
    footerButtons (make_contents_from_template_1 label title options fg bg)
      = (options.zip asciiUppercase).map (template1Button label fg) := by
  simp [footerButtons, make_contents_from_template_1, Val.objGet, findEntry,
    List.filter_append, List.filter_cons, List.filter_map,
    isButtonVal_template1Button, isButtonVal, List.filter_eq_self]
  congr 1
  exact List.filter_eq_self.mpr (fun a _ => isButtonVal_template1Button label fg a)

/-- C8: compiling a `template id=1` spec with `n` options produces
exactly `min n 26` buttons, in option order, the `i`-th button's
postback data being `q=<label>&a=<i-th uppercase letter>`; options past
the 26th are silently dropped by the zip against the alphabet.  For
options `["x", "y", "z"]` this is exactly three buttons with data
ending `a=A`, `a=B`, `a=C` in that order. -/
theorem C8_template1_roundtrip (label title fg bg : String) (options : List String) :
    (footerButtons (make_contents_from_template_1 label title options fg bg)).length
      = min options.length 26 ∧
    (footerButtons (make_contents_from_template_1 label title options fg bg)).map
        buttonData
      = (options.zip asciiUppercase).map
          (fun p => some (.str ("q=" ++ label ++ "&a=" ++ p.2))) ∧
    (footerButtons (make_contents_from_template_1 label title ["x", "y", "z"] fg bg)).map
        buttonData
      = [some (.str ("q=" ++ label ++ "&a=" ++ "A")),
         some (.str ("q=" ++ label ++ "&a=" ++ "B")),
         some (.str ("q=" ++ label ++ "&a=" ++ "C"))] := by
  refine ⟨?_, ?_, ?_⟩
  · rw [footerButtons_template1]
    simp [asciiUppercase]
  · rw [footerButtons_template1, List.map_map]
    rfl
  · rw [footerButtons_template1]
    rfl

/-- A raw configuration whose single node's `dest` ("Nowhere") and the
implicit entry name "Begin" are not keys of the mapping, yet which the
loader accepts. -/
def danglingRaw : Val :=
  .obj [(.str "A", .obj [
    (.str "messages", .arr []),
    (.str "action", .obj [
      (.str "type", .str "default"),
      (.str "data", .obj [(.str "dest", .str "Nowhere")])])])]

/-- C1 counterexample: `load_chatflow` accepts `danglingRaw` even
though the stored `dest` "Nowhere" and the entry name "Begin" are not
keys of the resulting maker mapping — loading does not fail on a
dangling destination. -/
theorem C1_counterexample :
    load_chatflow danglingRaw = .ok [("A", .mkDefault "Nowhere" [])] ∧
    lookupGraph [("A", .mkDefault "Nowhere" [])] "Nowhere" = none ∧
    lookupGraph [("A", .mkDefault "Nowhere" [])] "Begin" = none :=
  ⟨rfl, rfl, rfl⟩

/-- C1 amended: loading performs only shape validation and never checks
that `dest` names (or the entry name "Begin") are keys of the graph;
`danglingRaw` is accepted whole, and a dangling destination fails only
at transition time, when the graph lookup finds no maker. -/
theorem C1_dest_resolved_at_transition :
    load_chatflow danglingRaw = .ok [("A", .mkDefault "Nowhere" [])] ∧
    (∀ (g : Graph) (heap : List Counter) (text dest : String)
        (ms : List MessageMaker) (st : Nat),
      lookupGraph g dest = none →
      Chat.transition g heap (.ChatDefault dest ms st) text = none) ∧
    (∀ (g : Graph) (heap : List Counter) (text : String),
      lookupGraph g "Begin" = none →
      Chat.transition g heap .ChatInit text = none) := by
  refine ⟨rfl, ?_, ?_⟩
  · intro g heap text dest ms st h
    simp [Chat.transition, h]
  · intro g heap text h
    simp [Chat.transition, h]

theorem C1_dest_resolved_at_transition_witness :
    Chat.transition [] [] (.ChatDefault "Nowhere" [] 0) "hi" = none ∧
    Chat.transition [] [] .ChatInit "hi" = none :=
  ⟨C1_dest_resolved_at_transition.2.1 [] [] "hi" "Nowhere" [] 0 rfl,
   C1_dest_resolved_at_transition.2.2 [] [] "hi" rfl⟩

/-- A raw configuration with a well-formed `default` node "A" followed
by an `end` node "B" whose single `results` entry is an empty mapping,
lacking all of `original`, `preview`, `text`. -/
def badEndRaw : Val :=
  .obj [
    (.str "A", .obj [
      (.str "messages", .arr []),
      (.str "action", .obj [
        (.str "type", .str "default"),
        (.str "data", .obj [(.str "dest", .str "B")])])]),
    (.str "B", .obj [
      (.str "messages", .arr []),
      (.str "action", .obj [
        (.str "type", .str "end"),
        (.str "data", .obj [
          (.str "dest", .str "A"),
          (.str "results", .arr [.obj []])])])])]

/-- C4 counterexample: `validate_chatflow` accepts `badEndRaw` (so the
missing result fields are not a validation failure surfaced before
compilation); the load still fails, but only inside compilation
(`parse_chatflow`), after node "A" has already been compiled. -/
theorem C4_counterexample :
    validate_chatflow badEndRaw = .ok true ∧
    validate_result (.obj []) = false ∧
    load_chatflow badEndRaw = .error "invalid action type" :=
  ⟨rfl, rfl, rfl⟩

/-- C4 amended: validation is total and ordered for the checks it
performs — it accepts any node whose messages all carry a string `type`
and whose action carries a string `type`, never inspecting `results` —
while an `end` action with a `results` entry lacking the three string
fields is rejected only during compilation, by `parse_chat`, as an
invalid-action error at that node's position in parse order. -/
theorem C4_end_results_checked_at_parse :
    (∀ (v : Val) (ms : List Val) (act : Val) (t : String),
      v.objGet "messages" = some (.arr ms) →
      (∀ m ∈ ms, ∃ s, m.objGet "type" = some (.str s)) →
      v.objGet "action" = some act →
      act.objGet "type" = some (.str t) →
      validate_node v = .ok ()) ∧
    (∀ (v : Val) (ms : List Val) (msgs : List MessageMaker) (act d : Val)
        (dest : String) (results : List Val),
      v.objGet "messages" = some (.arr ms) →
      parse_messages ms = .ok msgs →
      v.objGet "action" = some act →
      act.objGet "type" = some (.str "end") →
      act.objGet "data" = some d →
      d.objGet "dest" = some (.str dest) →
      d.objGet "results" = some (.arr results) →
      results.all validate_result = false →
      parse_chat v = .error "invalid action type") := by
  constructor
  · intro v ms act t hms hall hact ht
    have hmsgs : ∀ l : List Val, (∀ m ∈ l, ∃ s, m.objGet "type" = some (.str s)) →
        validate_messages l = .ok () := by
      intro l
      induction l with
      | nil => intro _; rfl
      | cons m rest ih =>
        intro h
        obtain ⟨s, hs⟩ := h m (List.mem_cons_self _ _)
        simp only [validate_messages, validate_message, hs]
        exact ih (fun x hx => h x (List.mem_cons_of_mem _ hx))
    simp only [validate_node, hms, hact, hmsgs ms hall, validate_action, ht]
  · intro v ms msgs act d dest results hms hparse hact ht hd hdest hres hall
    simp only [parse_chat, hms, hparse, hact, parse_action, ht, hd, hdest, hres,
      hall, Bool.false_eq_true, if_false]

theorem C4_end_results_checked_at_parse_witness :
    validate_node (.obj [
      (.str "messages", .arr []),
      (.str "action", .obj [
        (.str "type", .str "end"),
        (.str "data", .obj [
          (.str "dest", .str "A"),
          (.str "results", .arr [.obj []])])])]) = .ok () ∧
    parse_chat (.obj [
      (.str "messages", .arr []),
      (.str "action", .obj [
        (.str "type", .str "end"),
        (.str "data", .obj [
          (.str "dest", .str "A"),
          (.str "results", .arr [.obj []])])])]) = .error "invalid action type" :=
  ⟨C4_end_results_checked_at_parse.1 _ [] (.obj [
      (.str "type", .str "end"),
      (.str "data", .obj [
        (.str "dest", .str "A"),
        (.str "results", .arr [.obj []])])]) "end" rfl (by simp) rfl rfl,
   C4_end_results_checked_at_parse.2 _ [] [] (.obj [
      (.str "type", .str "end"),
      (.str "data", .obj [
        (.str "dest", .str "A"),
        (.str "results", .arr [.obj []])])])
      (.obj [(.str "dest", .str "A"), (.str "results", .arr [.obj []])])
      "A" [.obj []] rfl rfl rfl rfl rfl rfl rfl rfl⟩

end HakkaBot
